import Mathlib

/-
Verification development for the tonic-interceptor crate (src/lib.rs).

The library is a request/response interception layer: a pluggable policy
(the Interceptor trait) inspects and mutates request metadata, may
short-circuit a call with a terminal Status, and post-processes the
metadata of successful responses.  The asynchronous completion object
(InterceptorFut) is a two-branch state machine holding either the wrapped
pending computation or a short-circuit status.

Embedding choices:
  - header maps and extension maps are association lists (insertion order);
  - futures are deterministic state machines: a state type sigma together
    with a poll function sigma -> Poll out x sigma, passed explicitly;
  - Rust in-place mutation becomes explicit state passing: hooks return the
    updated maps, service and future polls return the updated state;
  - tonic and http types that are external to the repository are modelled
    from the spec where their behaviour matters (Status serialization).
-/

namespace TonicInterceptor

/-- HTTP header map (http::HeaderMap, tonic metadata), modelled as an
association list of name-value pairs in insertion order. -/
abbrev Headers : Type := List (String × String)

/-- http::Extensions: a typed heterogeneous side-channel store, modelled as
an association list keyed by type name. -/
abbrev Extensions : Type := List (String × String)

/-- Modelled from the spec: the terminal tonic::Status, external to the
repository and "opaque except for the fact that it can be rendered into
response headers".  Its header-serialization produces the status code plus
optional message headers, and may fail; `serOk` records whether the
serialization of this particular status succeeds. -/
structure Status where
  code : Nat
  message : String
  extraSer : Headers
  serOk : Bool
deriving DecidableEq, Repr

/-- Modelled from the spec: the headers a Status serializes itself into when
serialization succeeds — "status code and optional message headers". -/
def Status.serHeaders (s : Status) : Headers :=
  ("grpc-status", toString s.code) :: s.extraSer

/-- Modelled from the spec: Status::add_header — best-effort extension of a
header map with the serialized status headers; "serialization failures are
swallowed, not surfaced" and the headers are simply omitted. -/
def Status.add_header (s : Status) (h : Headers) : Headers :=
  if s.serOk then h ++ s.serHeaders else h

/-- http::Request, decomposed as in the source into parts (headers,
extensions) plus an opaque body. -/
structure Request (B : Type) where
  headers : Headers
  extensions : Extensions
  body : B
deriving DecidableEq, Repr

/-- http::Response: same shape as the request for this layer. -/
structure Response (B : Type) where
  headers : Headers
  extensions : Extensions
  body : B
deriving DecidableEq, Repr

/-- tonic::metadata::MetadataMap::from_headers — the metadata map is a
transparent wrapper over the header map, so the conversion is the
identity. -/
def MetadataMap.from_headers (h : Headers) : Headers := h

/-- tonic::metadata::MetadataMap::into_headers — inverse transparent
conversion, also the identity. -/
def MetadataMap.into_headers (h : Headers) : Headers := h

/-- The Interceptor trait (src/lib.rs lines 10-24): a request hook that may
mutate headers and extensions and may return a short-circuiting status, and
a response hook that may mutate headers with read-only extensions.  Rust
in-place mutation is modelled by returning the updated values.  The default
response hook does nothing. -/
class Interceptor (α : Type) where
  on_request : α → Headers → Extensions → Headers × Extensions × Option Status
  on_response : α → Headers → Extensions → Headers := fun _ h _ => h

/-- std::sync::Arc as this embedding sees it: shared ownership of a policy
value. -/
structure Arc (α : Type) where
  value : α
deriving DecidableEq, Repr

/-- Arc::as_ref — view the shared value. -/
def Arc.as_ref (a : Arc α) : α := a.value

/-- impl Interceptor for Arc, src/lib.rs lines 26-36: both hooks delegate to
the wrapped interceptor through as_ref. -/
instance [Interceptor α] : Interceptor (Arc α) where
  on_request self h e := Interceptor.on_request (Arc.as_ref self) h e
  on_response self h e := Interceptor.on_response (Arc.as_ref self) h e

/-- core::task::Poll. -/
inductive Poll (α : Type) where
  | ready (value : α)
  | pending
deriving DecidableEq, Repr

/-- Interception service future (src/lib.rs lines 96-99): the cloned policy
together with Result of the wrapped inner future (Ok) or the short-circuit
status (Err). -/
structure InterceptorFut (I : Type) (σ : Type) where
  interceptor : I
  inner : Except Status σ

/-- InterceptorFut::status — construct the short-circuit branch. -/
def InterceptorFut.status (i : I) (s : Status) : InterceptorFut I σ :=
  { interceptor := i, inner := Except.error s }

/-- InterceptorFut::fut — construct the delegate branch. -/
def InterceptorFut.fut (i : I) (f : σ) : InterceptorFut I σ :=
  { interceptor := i, inner := Except.ok f }

/-- The response synthesized on the short-circuit branch (src/lib.rs lines
129-131): http::Response::new(Default::default()) — default body, empty
headers — then the content-type header is inserted, then the status headers
are added best-effort. -/
def shortCircuitResponse (B : Type) [Inhabited B] (st : Status) : Response B :=
  { headers := st.add_header [("content-type", "application/grpc")]
  , extensions := []
  , body := default }

/-- InterceptorFut::poll (src/lib.rs lines 123-148), parameterized by the
wrapped future poll function `pollF`.  Returns the poll outcome together
with the updated future (Rust mutates in place through the pin). -/
def InterceptorFut.poll [Inhabited B] [Interceptor I]
    (pollF : σ → Poll (Except E (Response B)) × σ)
    (self : InterceptorFut I σ) :
    Poll (Except E (Response B)) × InterceptorFut I σ :=
  match self.inner with
  | Except.error st => (Poll.ready (Except.ok (shortCircuitResponse B st)), self)
  | Except.ok fs =>
    match pollF fs with
    | (Poll.ready (Except.ok resp), fs') =>
      let headers := MetadataMap.from_headers resp.headers
      let headers := Interceptor.on_response self.interceptor headers resp.extensions
      (Poll.ready (Except.ok { resp with headers := MetadataMap.into_headers headers }),
       { self with inner := Except.ok fs' })
    | (Poll.ready (Except.error e), fs') =>
      (Poll.ready (Except.error e), { self with inner := Except.ok fs' })
    | (Poll.pending, fs') => (Poll.pending, { self with inner := Except.ok fs' })

/-- Whether the response hook is invoked during one poll step: reading the
poll source, on_response runs exactly when the future is in the delegate
branch and the wrapped computation resolves with Ok (line 141). -/
def InterceptorFut.respHookRuns
    (pollF : σ → Poll (Except E (Response B)) × σ)
    (self : InterceptorFut I σ) : Bool :=
  match self.inner with
  | Except.error _ => false
  | Except.ok fs =>
    match pollF fs with
    | (Poll.ready (Except.ok _), _) => true
    | _ => false

/-- Iterated polling: poll the future n + 1 times, threading the updated
state, and return the last outcome with the final state. -/
def InterceptorFut.pollN [Inhabited B] [Interceptor I]
    (pollF : σ → Poll (Except E (Response B)) × σ)
    (self : InterceptorFut I σ) : Nat → Poll (Except E (Response B)) × InterceptorFut I σ
  | 0 => InterceptorFut.poll pollF self
  | n + 1 => InterceptorFut.pollN pollF (InterceptorFut.poll pollF self).2 n

/-- The interception service (src/lib.rs lines 53-56). -/
structure InterceptorService (I : Type) (S : Type) where
  interceptor : I
  inner : S

/-- InterceptorService::new. -/
def InterceptorService.new (i : I) (s : S) : InterceptorService I S :=
  { interceptor := i, inner := s }

/-- Service::poll_ready (src/lib.rs lines 75-77): delegates to the inner
service, parameterized by the inner poll_ready function (which may update
inner service state, as Rust takes it by mutable reference). -/
def InterceptorService.poll_ready
    (innerPollReady : S → Poll (Except E Unit) × S)
    (self : InterceptorService I S) :
    Poll (Except E Unit) × InterceptorService I S :=
  ((innerPollReady self.inner).1, { self with inner := (innerPollReady self.inner).2 })

/-- Service::call (src/lib.rs lines 80-92): decompose the request, convert
headers to a metadata map, run on_request; on None reassemble the possibly
mutated parts with the original body and delegate to the inner service, on
Some(status) discard the request and short-circuit.  `innerCall` is the
inner service call function (request in, future state out, possibly
updating the inner service state). -/
def InterceptorService.call [Interceptor I]
    (innerCall : S → Request B → σ × S)
    (self : InterceptorService I S) (req : Request B) :
    InterceptorFut I σ × InterceptorService I S :=
  let headers := MetadataMap.from_headers req.headers
  match Interceptor.on_request self.interceptor headers req.extensions with
  | (headers, extensions, none) =>
    let req' : Request B :=
      { headers := MetadataMap.into_headers headers
      , extensions := extensions
      , body := req.body }
    ((InterceptorFut.fut self.interceptor (innerCall self.inner req').1),
     { self with inner := (innerCall self.inner req').2 })
  | (_, _, some st) => (InterceptorFut.status self.interceptor st, self)

/-- The OnRequest adapter (src/lib.rs lines 151-160): an interceptor built
from a request callback alone; the response hook is the trait default. -/
structure OnRequest where
  f : Headers → Extensions → Headers × Extensions × Option Status

instance : Interceptor OnRequest where
  on_request self h e := self.f h e

/-- Which branch the future is in: true on the delegate branch (inner is
Ok), false on the short-circuit branch (inner is Err). -/
def InterceptorFut.isDelegate (self : InterceptorFut I σ) : Bool :=
  match self.inner with
  | Except.ok _ => true
  | Except.error _ => false

/-- Whether a poll outcome is a successful resolution: Ready with the Ok
arm of the result. -/
def pollResolvedOk : Poll (Except E R) → Bool
  | Poll.ready (Except.ok _) => true
  | _ => false

/-
Concrete fixtures used by witnesses and the counterexample.
-/

/-- A concrete policy that tags requests: adds one header and one extension
entry on request, never short-circuits, and adds one header on response. -/
structure TagPolicy where
  mark : String
deriving DecidableEq, Repr

instance : Interceptor TagPolicy where
  on_request self h e := (h ++ [("x-tag", self.mark)], e ++ [("Dummy", self.mark)], none)
  on_response self h _ := h ++ [("x-resp", self.mark)]

/-- A concrete policy that unconditionally short-circuits with a fixed
status. -/
structure RejectPolicy where
  st : Status
deriving DecidableEq, Repr

instance : Interceptor RejectPolicy where
  on_request self h e := (h, e, some self.st)

/-- A concrete status whose header-serialization fails; per the spec the
failure is swallowed and the status headers are omitted. -/
def failStatus : Status :=
  { code := 7, message := "denied", extraSer := [], serOk := false }

/-- A concrete status whose header-serialization succeeds. -/
def okStatus : Status :=
  { code := 7, message := "denied", extraSer := [("grpc-message", "denied")], serOk := true }

/-- A concrete inner service call over a Nat call counter: the future state
records the counter value, the counter is incremented. -/
def natInnerCall (n : Nat) (_ : Request String) : Nat × Nat := (n, n + 1)

/-- A concrete inner future poll that immediately resolves successfully. -/
def okPollF (n : Nat) : Poll (Except String (Response String)) × Nat :=
  (Poll.ready (Except.ok { headers := [("h", "v")], extensions := [("X", "x")], body := "R" }), n)

/-- A concrete inner future poll that immediately resolves with an error. -/
def errPollF (n : Nat) : Poll (Except String (Response String)) × Nat :=
  (Poll.ready (Except.error "boom"), n)

/-
Theorems for the claims.
-/

/-- C2: when on_request returns None with mutated headers and extensions,
call delegates to the inner service exactly once — the returned future wraps
precisely one application of the inner call to the request reassembled from
the mutated metadata and extension maps together with the original body, and
the inner service state is threaded through that single application. -/
theorem c2_continue_delegates_once [Interceptor I]
    (innerCall : S → Request B → σ × S)
    (self : InterceptorService I S) (req : Request B)
    (h' : Headers) (e' : Extensions)
    (hreq : Interceptor.on_request self.interceptor req.headers req.extensions
              = (h', e', none)) :
    InterceptorService.call innerCall self req
      = (InterceptorFut.fut self.interceptor
           (innerCall self.inner { headers := h', extensions := e', body := req.body }).1,
         { self with inner :=
             (innerCall self.inner { headers := h', extensions := e', body := req.body }).2 }) := by
  simp [InterceptorService.call, MetadataMap.from_headers, MetadataMap.into_headers, hreq]

/-- Witness for C2 at a concrete policy, service and request. -/
theorem c2_witness :
    Interceptor.on_request (TagPolicy.mk "a") ([] : Headers) ([] : Extensions)
      = ([("x-tag", "a")], [("Dummy", "a")], none)
    ∧ InterceptorService.call natInnerCall
        (InterceptorService.new (TagPolicy.mk "a") 0)
        { headers := [], extensions := [], body := "B" }
      = (InterceptorFut.fut (TagPolicy.mk "a")
           (natInnerCall 0 { headers := [("x-tag", "a")], extensions := [("Dummy", "a")], body := "B" }).1,
         { interceptor := TagPolicy.mk "a"
         , inner := (natInnerCall 0 { headers := [("x-tag", "a")], extensions := [("Dummy", "a")], body := "B" }).2 }) :=
  ⟨rfl, c2_continue_delegates_once natInnerCall
          (InterceptorService.new (TagPolicy.mk "a") 0)
          { headers := [], extensions := [], body := "B" }
          [("x-tag", "a")] [("Dummy", "a")] rfl⟩

/-- C1 (amended): when on_request returns Some(status), the inner service
call is never invoked (the result of call is the pure short-circuit future,
independent of the inner call function), the completion resolves on its
first poll to Ready(Ok(response)) with the default body and with unchanged
future state, and the response carries the status code in its headers
whenever the status header-serialization succeeds (on serialization failure
the status headers are omitted). -/
theorem c1_short_circuit_amended [Interceptor I] [Inhabited B]
    (innerCall : S → Request B → σ × S)
    (pollF : σ → Poll (Except E (Response B)) × σ)
    (self : InterceptorService I S) (req : Request B)
    (st : Status) (h' : Headers) (e' : Extensions)
    (hreq : Interceptor.on_request self.interceptor req.headers req.extensions
              = (h', e', some st)) :
    InterceptorService.call innerCall self req
      = (InterceptorFut.status self.interceptor st, self)
    ∧ InterceptorFut.poll pollF (InterceptorService.call innerCall self req).1
        = (Poll.ready (Except.ok (shortCircuitResponse B st)),
           (InterceptorFut.status self.interceptor st : InterceptorFut I σ))
    ∧ (shortCircuitResponse B st).body = (default : B)
    ∧ (st.serOk = true →
        ("grpc-status", toString st.code) ∈ (shortCircuitResponse B st).headers) := by
  have hcall : InterceptorService.call innerCall self req
      = (InterceptorFut.status self.interceptor st, self) := by
    simp [InterceptorService.call, MetadataMap.from_headers, hreq]
  refine ⟨hcall, ?_, rfl, ?_⟩
  · rw [hcall]
    simp [InterceptorFut.poll, InterceptorFut.status]
  · intro hser
    simp [shortCircuitResponse, Status.add_header, Status.serHeaders, hser]

/-- Witness for C1 at a concrete rejecting policy whose status serializes
successfully. -/
theorem c1_witness :
    Interceptor.on_request (RejectPolicy.mk okStatus) ([] : Headers) ([] : Extensions)
      = ([], [], some okStatus)
    ∧ (InterceptorService.call natInnerCall
          (InterceptorService.new (RejectPolicy.mk okStatus) 0)
          { headers := [], extensions := [], body := "B" }
        = (InterceptorFut.status (RejectPolicy.mk okStatus) okStatus,
           InterceptorService.new (RejectPolicy.mk okStatus) 0)
      ∧ InterceptorFut.poll okPollF
          (InterceptorService.call natInnerCall
            (InterceptorService.new (RejectPolicy.mk okStatus) 0)
            { headers := [], extensions := [], body := "B" }).1
          = (Poll.ready (Except.ok (shortCircuitResponse String okStatus)),
             (InterceptorFut.status (RejectPolicy.mk okStatus) okStatus : InterceptorFut RejectPolicy Nat))
      ∧ (shortCircuitResponse String okStatus).body = (default : String)
      ∧ (okStatus.serOk = true →
          ("grpc-status", toString okStatus.code) ∈ (shortCircuitResponse String okStatus).headers)) :=
  ⟨rfl, c1_short_circuit_amended natInnerCall okPollF
          (InterceptorService.new (RejectPolicy.mk okStatus) 0)
          { headers := [], extensions := [], body := "B" }
          okStatus [] [] rfl⟩

/-- C1 counterexample: with a status whose header-serialization fails, the
short-circuit response carries no grpc-status header at all, so the
unconditional claim that the response carries the status code in its
headers is false at this input. -/
theorem c1_counterexample :
    Interceptor.on_request (RejectPolicy.mk failStatus) ([] : Headers) ([] : Extensions)
      = ([], [], some failStatus)
    ∧ (InterceptorFut.poll okPollF
        (InterceptorService.call natInnerCall
          (InterceptorService.new (RejectPolicy.mk failStatus) 0)
          { headers := [], extensions := [], body := "B" }).1).1
      = Poll.ready (Except.ok
          ({ headers := [("content-type", "application/grpc")], extensions := [], body := "" } : Response String))
    ∧ ("grpc-status", toString failStatus.code) ∉ (shortCircuitResponse String failStatus).headers
    ∧ ∀ p ∈ (shortCircuitResponse String failStatus).headers, p.1 ≠ "grpc-status" := by
  refine ⟨rfl, rfl, ?_, ?_⟩
  · decide
  · decide

/-- C3: when the wrapped inner future resolves with Ok(resp), the response
hook is invoked exactly once — the poll outcome is Ready with resp carrying
exactly one application of on_response to the metadata and extensions of
resp — and it runs before the completion yields Ready, so the caller
observes the response with the on_response metadata mutations applied. -/
theorem c3_on_response_once [Interceptor I] [Inhabited B]
    (pollF : σ → Poll (Except E (Response B)) × σ)
    (i : I) (fs fs' : σ) (resp : Response B)
    (hpoll : pollF fs = (Poll.ready (Except.ok resp), fs')) :
    InterceptorFut.poll pollF (InterceptorFut.fut i fs)
      = (Poll.ready (Except.ok
           { resp with headers := Interceptor.on_response i resp.headers resp.extensions }),
         InterceptorFut.fut i fs')
    ∧ InterceptorFut.respHookRuns pollF (InterceptorFut.fut i fs) = true := by
  constructor
  · simp [InterceptorFut.poll, InterceptorFut.fut, hpoll,
      MetadataMap.from_headers, MetadataMap.into_headers]
  · simp [InterceptorFut.respHookRuns, InterceptorFut.fut, hpoll]

/-- Witness for C3 at a concrete policy and an immediately resolving inner
future. -/
theorem c3_witness :
    okPollF 0 = (Poll.ready (Except.ok { headers := [("h", "v")], extensions := [("X", "x")], body := "R" }), 0)
    ∧ (InterceptorFut.poll okPollF (InterceptorFut.fut (TagPolicy.mk "a") 0)
        = (Poll.ready (Except.ok
             { headers := [("h", "v"), ("x-resp", "a")], extensions := [("X", "x")], body := "R" }),
           InterceptorFut.fut (TagPolicy.mk "a") 0)
      ∧ InterceptorFut.respHookRuns okPollF (InterceptorFut.fut (TagPolicy.mk "a") 0) = true) :=
  ⟨rfl, c3_on_response_once okPollF (TagPolicy.mk "a") 0 0
          { headers := [("h", "v")], extensions := [("X", "x")], body := "R" } rfl⟩

/-- C4: when the wrapped inner future resolves with Err(e), on_response is
never invoked and the completion resolves to Ready(Err(e)) with the error
value unchanged. -/
theorem c4_error_propagated_unchanged [Interceptor I] [Inhabited B]
    (pollF : σ → Poll (Except E (Response B)) × σ)
    (i : I) (fs fs' : σ) (e : E)
    (hpoll : pollF fs = (Poll.ready (Except.error e), fs')) :
    InterceptorFut.poll pollF (InterceptorFut.fut i fs)
      = (Poll.ready (Except.error e), InterceptorFut.fut i fs')
    ∧ InterceptorFut.respHookRuns pollF (InterceptorFut.fut i fs) = false := by
  constructor
  · simp [InterceptorFut.poll, InterceptorFut.fut, hpoll]
  · simp [InterceptorFut.respHookRuns, InterceptorFut.fut, hpoll]

/-- Witness for C4 at a concrete policy and an immediately failing inner
future. -/
theorem c4_witness :
    errPollF 0 = (Poll.ready (Except.error "boom"), 0)
    ∧ (InterceptorFut.poll errPollF (InterceptorFut.fut (TagPolicy.mk "a") 0)
        = (Poll.ready (Except.error "boom"), InterceptorFut.fut (TagPolicy.mk "a") 0)
      ∧ InterceptorFut.respHookRuns errPollF (InterceptorFut.fut (TagPolicy.mk "a") 0) = false) :=
  ⟨rfl, c4_error_propagated_unchanged errPollF (TagPolicy.mk "a") 0 0 "boom" rfl⟩

/-- C5: every short-circuited completion surfaces as the Ok arm of the
result, never the error arm, in a single Ready step with no suspension and
no state change; the synthesized response has the default (empty) body, the
content-type application/grpc header first, and then exactly the headers
the status serializes itself into when that serialization succeeds — when
it fails they are simply omitted and resolution still succeeds. -/
theorem c5_short_circuit_wire_shape [Interceptor I] [Inhabited B]
    (pollF : σ → Poll (Except E (Response B)) × σ) (i : I) (st : Status) :
    InterceptorFut.poll pollF (InterceptorFut.status i st : InterceptorFut I σ)
      = (Poll.ready (Except.ok (shortCircuitResponse B st)),
         (InterceptorFut.status i st : InterceptorFut I σ))
    ∧ (shortCircuitResponse B st).body = (default : B)
    ∧ (shortCircuitResponse B st).headers
        = ("content-type", "application/grpc") :: (if st.serOk then st.serHeaders else []) := by
  refine ⟨?_, rfl, ?_⟩
  · simp [InterceptorFut.poll, InterceptorFut.status]
  · by_cases hser : st.serOk
    · simp [shortCircuitResponse, Status.add_header, hser]
    · simp [shortCircuitResponse, Status.add_header, hser]

/-- C6: one poll step never changes the branch chosen at construction (the
interceptor and the Ok-versus-Err shape of inner are preserved), and the
response hook runs in a step exactly when the future is on the delegate
branch and that step resolves successfully.  Since a hook-running step is a
resolving step and a future is not polled past its first Ready outcome, the
hook runs at most once per completion, only on the delegate branch, only on
successful resolution. -/
theorem c6_branch_immutable_hook_discipline [Interceptor I] [Inhabited B]
    (pollF : σ → Poll (Except E (Response B)) × σ)
    (self : InterceptorFut I σ) :
    (InterceptorFut.poll pollF self).2.interceptor = self.interceptor
    ∧ (InterceptorFut.poll pollF self).2.isDelegate = self.isDelegate
    ∧ InterceptorFut.respHookRuns pollF self
        = (self.isDelegate && pollResolvedOk (InterceptorFut.poll pollF self).1) := by
  rcases self with ⟨i, inner⟩
  cases inner with
  | error st =>
    simp [InterceptorFut.poll, InterceptorFut.isDelegate, InterceptorFut.respHookRuns,
      pollResolvedOk]
  | ok fs =>
    rcases hp : pollF fs with ⟨p, fs'⟩
    cases p with
    | ready r =>
      cases r with
      | ok resp =>
        simp [InterceptorFut.poll, InterceptorFut.isDelegate, InterceptorFut.respHookRuns,
          pollResolvedOk, hp]
      | error e =>
        simp [InterceptorFut.poll, InterceptorFut.isDelegate, InterceptorFut.respHookRuns,
          pollResolvedOk, hp]
    | pending =>
      simp [InterceptorFut.poll, InterceptorFut.isDelegate, InterceptorFut.respHookRuns,
        pollResolvedOk, hp]

/-- C7: the layer never touches bodies — on the delegate path the inner
service receives a request whose body is exactly the original body, and on
the successful response path the caller receives a response with exactly
the body and extensions the inner handler produced; only the header maps
may differ. -/
theorem c7_body_never_touched [Interceptor I] [Inhabited B]
    (innerCall : S → Request B → σ × S)
    (pollF : σ → Poll (Except E (Response B)) × σ)
    (self : InterceptorService I S) (req : Request B)
    (h' : Headers) (e' : Extensions)
    (hreq : Interceptor.on_request self.interceptor req.headers req.extensions
              = (h', e', none))
    (i : I) (fs fs' : σ) (resp : Response B)
    (hpoll : pollF fs = (Poll.ready (Except.ok resp), fs')) :
    (InterceptorService.call innerCall self req).1
      = InterceptorFut.fut self.interceptor
          (innerCall self.inner { headers := h', extensions := e', body := req.body }).1
    ∧ ∃ hs, (InterceptorFut.poll pollF (InterceptorFut.fut i fs)).1
        = Poll.ready (Except.ok
            { headers := hs, extensions := resp.extensions, body := resp.body }) := by
  constructor
  · simp [InterceptorService.call, MetadataMap.from_headers, MetadataMap.into_headers, hreq]
  · refine ⟨Interceptor.on_response i resp.headers resp.extensions, ?_⟩
    simp [InterceptorFut.poll, InterceptorFut.fut, hpoll,
      MetadataMap.from_headers, MetadataMap.into_headers]

/-- Witness for C7 at a concrete policy, request and inner future. -/
theorem c7_witness :
    Interceptor.on_request (TagPolicy.mk "a") ([] : Headers) ([] : Extensions)
      = ([("x-tag", "a")], [("Dummy", "a")], none)
    ∧ okPollF 0 = (Poll.ready (Except.ok { headers := [("h", "v")], extensions := [("X", "x")], body := "R" }), 0)
    ∧ ((InterceptorService.call natInnerCall
          (InterceptorService.new (TagPolicy.mk "a") 0)
          { headers := [], extensions := [], body := "B" }).1
        = InterceptorFut.fut (TagPolicy.mk "a")
            (natInnerCall 0 { headers := [("x-tag", "a")], extensions := [("Dummy", "a")], body := "B" }).1
      ∧ ∃ hs, (InterceptorFut.poll okPollF (InterceptorFut.fut (TagPolicy.mk "a") 0)).1
          = Poll.ready (Except.ok
              ({ headers := hs, extensions := [("X", "x")], body := "R" } : Response String))) :=
  ⟨rfl, rfl,
   c7_body_never_touched natInnerCall okPollF
     (InterceptorService.new (TagPolicy.mk "a") 0)
     { headers := [], extensions := [], body := "B" }
     [("x-tag", "a")] [("Dummy", "a")] rfl
     (TagPolicy.mk "a") 0 0
     { headers := [("h", "v")], extensions := [("X", "x")], body := "R" } rfl⟩

/-- C8: poll_ready is a pure pass-through — for every context (modelled by
the inner poll_ready function and state) the interceptor service returns
exactly what the inner service returns, updates only the inner state, and
contributes no readiness state of its own. -/
theorem c8_poll_ready_pass_through
    (innerPollReady : S → Poll (Except E Unit) × S)
    (self : InterceptorService I S) :
    (InterceptorService.poll_ready innerPollReady self).1 = (innerPollReady self.inner).1
    ∧ (InterceptorService.poll_ready innerPollReady self).2
        = { interceptor := self.interceptor, inner := (innerPollReady self.inner).2 } :=
  ⟨rfl, rfl⟩

/-- C9: on the short-circuit branch every poll, not only the first, returns
Ready(Ok) with the identically synthesized response and leaves the state
unchanged — the Err branch is never consumed or transitioned out of. -/
theorem c9_short_circuit_repoll_deterministic [Interceptor I] [Inhabited B]
    (pollF : σ → Poll (Except E (Response B)) × σ) (i : I) (st : Status) (n : Nat) :
    InterceptorFut.pollN pollF (InterceptorFut.status i st : InterceptorFut I σ) n
      = (Poll.ready (Except.ok (shortCircuitResponse B st)),
         (InterceptorFut.status i st : InterceptorFut I σ)) := by
  induction n with
  | zero => simp [InterceptorFut.pollN, InterceptorFut.poll, InterceptorFut.status]
  | succ k ih =>
    have hstep : (InterceptorFut.poll pollF (InterceptorFut.status i st : InterceptorFut I σ)).2
        = (InterceptorFut.status i st : InterceptorFut I σ) := by
      simp [InterceptorFut.poll, InterceptorFut.status]
    simp only [InterceptorFut.pollN, hstep]
    exact ih

/-- C10: the Interceptor implementation for Arc is a pure delegation
homomorphism — both hooks on the Arc wrapper return exactly what the
wrapped interceptor returns on the same arguments. -/
theorem c10_arc_pure_delegation [Interceptor α] (i : α) (h : Headers) (e : Extensions) :
    Interceptor.on_request (Arc.mk i) h e = Interceptor.on_request i h e
    ∧ Interceptor.on_response (Arc.mk i) h e = Interceptor.on_response i h e :=
  ⟨rfl, rfl⟩

end TonicInterceptor
